import Mathlib

/-!
Shallow embedding of the diffusers-FastAPI proxy layer.

The repository proxies browser requests to the Stability AI image API.  The
definitions below are translated from the handlers in `src/server.js`,
`src/pages/api/inpaint-image.ts`, `src/pages/api/erase-objects.ts`,
`src/pages/api/health.ts`, the Next API generate handler appended to
`src/pages/index.tsx`, and the legacy express variant `src/unnamed/part_002`.

Each per-request handler is split into two pure stages that mirror the code:
stage 1 covers everything up to (and excluding) the single outbound HTTP call
(credential check, input checks, mask processing, outbound payload
construction), and stage 2 covers the handling of the upstream outcome
(response-shape normalization, or the catch block on a non-2xx status).
-/

namespace StabilityProxy

/-- JavaScript truthiness of a string-or-undefined value: `undefined`, `null`
and the empty string are falsy. -/
def truthyStr : Option String → Bool
  | none => false
  | some s => s != ""

/-- JavaScript truthiness of a number-or-undefined value: `undefined` and `0`
are falsy. -/
def truthyNum : Option Nat → Bool
  | none => false
  | some n => n != 0

/-- The JavaScript idiom `v || d` on a numeric field: the default replaces any
falsy value (absent or zero). -/
def jsOrNum (v : Option Nat) (d : Nat) : Nat :=
  if truthyNum v then v.getD d else d

/-- The JavaScript idiom `v || d` on a string field: the default replaces any
falsy value (absent or empty). -/
def jsOrStr (v : Option String) (d : String) : String :=
  if truthyStr v then v.getD d else d

/-- Truthiness of `s?.trim()` in JavaScript: false when the value is absent or
trims to the empty string. Used by the Next API generate handler appended to
`src/pages/index.tsx`. -/
def promptTrimTruthy : Option String → Bool
  | none => false
  | some s => s.trim != ""

/-- One RGBA pixel of a Jimp bitmap; each channel is a byte
(`bitmap.data[idx]` through `bitmap.data[idx + 3]`). -/
structure Pixel where
  r : Nat
  g : Nat
  b : Nat
  a : Nat
deriving DecidableEq

/-- An all-black opaque pixel. -/
def blackPixel : Pixel := { r := 0, g := 0, b := 0, a := 255 }

/-- An all-white opaque pixel. -/
def whitePixel : Pixel := { r := 255, g := 255, b := 255, a := 255 }

/-- The per-pixel threshold of the Jimp mask scan in
`src/pages/api/inpaint-image.ts` (lines 93-100):
`const value = this.bitmap.data[idx] > 128 ? 255 : 0`.  The argument is the
greyscale intensity, which after `.greyscale()` is stored in the red channel
`data[idx]` that the scan reads. -/
def jimpThreshold (v : Nat) : Nat :=
  if v > 128 then 255 else 0

/-- The full body of the Jimp scan callback: all three color channels receive
the thresholded value and the alpha channel is set to 255. -/
def jimpScanPixel (v : Nat) : Pixel :=
  { r := jimpThreshold v, g := jimpThreshold v, b := jimpThreshold v, a := 255 }

/-- The inpaint mask normalization: the scan applied to every pixel of the
(resized, greyscaled) mask, represented by its list of greyscale
intensities. -/
def jimpNormalizeMask (m : List Nat) : List Pixel :=
  m.map jimpScanPixel

/-- Modelled from the sharp library documentation for `threshold(t)`, used by
`src/pages/api/erase-objects.ts` (line 45): any pixel value greater than or
equal to the threshold becomes 255, otherwise 0. -/
def sharpThreshold (t v : Nat) : Nat :=
  if v ≥ t then 255 else 0

/-- One output pixel of the erase-mask pipeline
`sharp(buffer).grayscale().threshold(128).png()`: the thresholded greyscale
value in every color channel of the single-band output, effectively opaque. -/
def sharpScanPixel (v : Nat) : Pixel :=
  { r := sharpThreshold 128 v, g := sharpThreshold 128 v, b := sharpThreshold 128 v, a := 255 }

/-- The erase mask processing applied to every greyscale intensity of the
uploaded mask (no resize happens on this path). -/
def sharpProcessMask (m : List Nat) : List Pixel :=
  m.map sharpScanPixel

/-- One entry appended to an outbound multipart form. File parts that the
claims never inspect are kept opaque. -/
inductive FormEntry where
  | str (s : String)
  | num (n : Nat)
  | imageBuf
  | maskBuf (pixels : List Pixel)
  | rawFile
deriving DecidableEq

/-- The JSON body of a `POST /api/generate-image` request
(`src/server.js` line 27). -/
structure GenerateReq where
  prompt : Option String
  negativePrompt : Option String
  steps : Option Nat
  cfgScale : Option Nat
  width : Option Nat
  height : Option Nat
  samples : Option Nat
deriving DecidableEq

/-- One element of the `text_prompts` array of the legacy Stability body.  The
text is optional because the code forwards `prompt` unchecked, which may be
`undefined`. -/
structure TextPrompt where
  text : Option String
  weight : Int
deriving DecidableEq

/-- The outbound JSON body built by the generate handlers
(`src/server.js` lines 35-55). -/
structure GenerateBody where
  text_prompts : List TextPrompt
  cfg_scale : Nat
  height : Nat
  width : Nat
  samples : Nat
  steps : Nat
deriving DecidableEq

/-- `requestBody` construction of `src/server.js` lines 35-55: positive prompt
first with weight 1, negative prompt pushed with weight -1 when truthy, and
`cfgScale || 7`, `height || 1024`, `width || 1024`, `samples || 1`,
`steps || 30`. -/
def buildGenerateBody (r : GenerateReq) : GenerateBody :=
  { text_prompts :=
      if truthyStr r.negativePrompt then
        [{ text := r.prompt, weight := 1 }, { text := r.negativePrompt, weight := -1 }]
      else
        [{ text := r.prompt, weight := 1 }]
    cfg_scale := jsOrNum r.cfgScale 7
    height := jsOrNum r.height 1024
    width := jsOrNum r.width 1024
    samples := jsOrNum r.samples 1
    steps := jsOrNum r.steps 30 }

/-- What a generate handler does before its single outbound HTTP call: either
it has already responded, or it performs the call with the built body. -/
inductive GenerateStage1 where
  | earlyResponse (status : Nat) (error : String)
  | callUpstream (body : GenerateBody)
deriving DecidableEq

/-- Number of outbound HTTP attempts the stage performs; the straight-line
code contains exactly one `axios.post`, never a retry loop. -/
def GenerateStage1.upstreamAttempts : GenerateStage1 → Nat
  | .earlyResponse _ _ => 0
  | .callUpstream _ => 1

/-- Whether the stage reaches the outbound call. -/
def GenerateStage1.isUpstreamCall : GenerateStage1 → Bool
  | .earlyResponse _ _ => false
  | .callUpstream _ => true

/-- Error message of the missing-key branch of `src/server.js` line 31. -/
def generateKeyError : String :=
  "Stability AI API key not configured. Please set STABILITY_API_KEY in your .env file."

/-- Pre-upstream logic of the express generate handler
(`src/server.js` lines 25-63): a key check, then the body build and the call.
There is no prompt validation. -/
def generateStage1 (apiKey : Option String) (r : GenerateReq) : GenerateStage1 :=
  if truthyStr apiKey = false then
    .earlyResponse 500 generateKeyError
  else
    .callUpstream (buildGenerateBody r)

/-- Error message of the missing-key branch of the Next API generate handler
appended to `src/pages/index.tsx` (line 183). -/
def nextGenerateKeyError : String :=
  "Stability AI API key not configured. Please set STABILITY_API_KEY in your .env.local file."

/-- `requestBody` of the Next API generate handler appended to
`src/pages/index.tsx` (lines 191-211); it differs from the express one only in
guarding the negative prompt with `negativePrompt?.trim()`. -/
def nextBuildGenerateBody (r : GenerateReq) : GenerateBody :=
  { text_prompts :=
      if promptTrimTruthy r.negativePrompt then
        [{ text := r.prompt, weight := 1 }, { text := r.negativePrompt, weight := -1 }]
      else
        [{ text := r.prompt, weight := 1 }]
    cfg_scale := jsOrNum r.cfgScale 7
    height := jsOrNum r.height 1024
    width := jsOrNum r.width 1024
    samples := jsOrNum r.samples 1
    steps := jsOrNum r.steps 30 }

/-- Pre-upstream logic of the Next API generate handler appended to
`src/pages/index.tsx` (lines 162-219): key check, then
`if (!prompt?.trim()) return 400`, then the call. -/
def nextGenerateStage1 (apiKey : Option String) (r : GenerateReq) : GenerateStage1 :=
  if truthyStr apiKey = false then
    .earlyResponse 500 nextGenerateKeyError
  else if promptTrimTruthy r.prompt = false then
    .earlyResponse 400 "Prompt is required"
  else
    .callUpstream (nextBuildGenerateBody r)

/-- One element of the legacy `artifacts` array of an upstream response. -/
structure Artifact where
  base64 : String
  seed : Option Nat
deriving DecidableEq

/-- A 2xx upstream body as seen by the generate handlers: it may or may not
carry an `artifacts` array. -/
structure GenUpstreamBody where
  artifacts : Option (List Artifact)
  usage : Option String
deriving DecidableEq

/-- One element of the normalized `images` array returned to the browser. -/
structure ImageOut where
  base64 : String
  seed : Option Nat
deriving DecidableEq

/-- The data-URL wrapping applied to every upstream base64 payload. -/
def pngDataUrl (b64 : String) : String :=
  "data:image/png;base64," ++ b64

/-- Outcome of the single upstream call of a generate handler: a 2xx body, or
a non-2xx status with its raw body (axios throws in that case). -/
inductive GenUpstream where
  | ok (body : GenUpstreamBody)
  | httpError (status : Nat) (body : String)
deriving DecidableEq

/-- The JSON answer a generate handler sends after the upstream call. -/
inductive GenerateResult where
  | success (images : List ImageOut) (usage : Option String)
  | errorResp (status : Nat) (error : String) (details : String)
deriving DecidableEq

/-- The message axios attaches to a non-2xx error, used as the
`error.message` fallback of the catch blocks. -/
def axiosErrorMessage (status : Nat) : String :=
  "Request failed with status code " ++ toString status

/-- The runtime TypeError message produced when the handler evaluates
`response.data.artifacts.map` on a body without an `artifacts` field; the
catch block then reports `error.message` because such an error has no
`response` property. -/
def typeErrorMessage : String :=
  "Cannot read properties of undefined (reading map)"

/-- Post-upstream logic of the generate handlers (`src/server.js` lines
64-83): map the artifacts into data URLs on a recognized body, let the
TypeError on a body without artifacts fall into the catch block, and on an
axios error answer 500 with `error.response?.data || error.message` as
details. -/
def generateStage2 (u : GenUpstream) : GenerateResult :=
  match u with
  | .httpError status body =>
      .errorResp 500 "Failed to generate image"
        (if body != "" then body else axiosErrorMessage status)
  | .ok body =>
      match body.artifacts with
      | some arts =>
          .success (arts.map fun a => { base64 := pngDataUrl a.base64, seed := a.seed })
            body.usage
      | none =>
          .errorResp 500 "Failed to generate image" typeErrorMessage

/-- The parsed multipart fields of a `POST /api/inpaint-image` request
(`src/pages/api/inpaint-image.ts` lines 52-63).  The mask file is
represented by its greyscale intensities after the resize; the image file is
opaque.  `samples` is read by the handler but never used. -/
structure InpaintReq where
  prompt : Option String
  negative_prompt : Option String
  steps : Option Nat
  cfg_scale : Option Nat
  samples : Option Nat
  seed : Option Nat
  output_format : Option String
  style_preset : Option String
  imageFile : Option Unit
  maskFile : Option (List Nat)
deriving DecidableEq

/-- The multipart form built by the inpaint handler
(`src/pages/api/inpaint-image.ts` lines 104-129), in append order: image and
prompt always, the processed mask, then each optional field only when truthy,
with `output_format` defaulting to png. -/
def buildInpaintForm (r : InpaintReq) (processedMask : List Pixel) :
    List (String × FormEntry) :=
  [("image", FormEntry.imageBuf), ("prompt", FormEntry.str (jsOrStr r.prompt ""))]
  ++ [("mask", FormEntry.maskBuf processedMask)]
  ++ (if truthyStr r.negative_prompt then
        [("negative_prompt", FormEntry.str (jsOrStr r.negative_prompt ""))]
      else [])
  ++ (if truthyNum r.seed then [("seed", FormEntry.num (r.seed.getD 0))] else [])
  ++ (if truthyStr r.output_format then
        [("output_format", FormEntry.str (jsOrStr r.output_format ""))]
      else [("output_format", FormEntry.str "png")])
  ++ (if truthyStr r.style_preset then
        [("style_preset", FormEntry.str (jsOrStr r.style_preset ""))]
      else [])
  ++ (if truthyNum r.cfg_scale then [("cfg_scale", FormEntry.num (r.cfg_scale.getD 0))] else [])
  ++ (if truthyNum r.steps then [("steps", FormEntry.num (r.steps.getD 0))] else [])

/-- What the inpaint handler does before its single outbound HTTP call. -/
inductive InpaintStage1 where
  | earlyResponse (status : Nat) (error : String)
  | callUpstream (form : List (String × FormEntry))
deriving DecidableEq

/-- Number of outbound HTTP attempts of the inpaint pre-upstream stage. -/
def InpaintStage1.upstreamAttempts : InpaintStage1 → Nat
  | .earlyResponse _ _ => 0
  | .callUpstream _ => 1

/-- Whether the inpaint stage reaches the outbound call. -/
def InpaintStage1.isUpstreamCall : InpaintStage1 → Bool
  | .earlyResponse _ _ => false
  | .callUpstream _ => true

/-- Error message of the missing-key branch of
`src/pages/api/inpaint-image.ts` line 67. -/
def inpaintKeyError : String :=
  "Stability AI API key not configured. Please set STABILITY_API_KEY in your .env.local file."

/-- Error message of the missing-files branch shared by the inpaint and erase
handlers. -/
def filesRequiredError : String :=
  "Both image and mask files are required"

/-- Pre-upstream logic of the inpaint handler
(`src/pages/api/inpaint-image.ts` lines 57-168): key check, then files check,
then mask normalization and form build, then the call.  There is no prompt
validation and no empty-mask rejection. -/
def inpaintStage1 (apiKey : Option String) (r : InpaintReq) : InpaintStage1 :=
  if truthyStr apiKey = false then
    .earlyResponse 500 inpaintKeyError
  else
    match r.imageFile, r.maskFile with
    | some _, some m => .callUpstream (buildInpaintForm r (jimpNormalizeMask m))
    | _, _ => .earlyResponse 400 filesRequiredError

/-- One element of the modern `images` array of an upstream response. -/
structure ImgItem where
  image : String
  seed : Option Nat
deriving DecidableEq

/-- A 2xx upstream body as probed by the inpaint handler: a truthy `image`
field, or an `images` array, or neither. -/
structure InpaintUpstreamBody where
  image : Option String
  seed : Option Nat
  images : Option (List ImgItem)
  usage : Option String
deriving DecidableEq

/-- Outcome of the single upstream call of the inpaint handler. -/
inductive InpaintUpstream where
  | ok (body : InpaintUpstreamBody)
  | httpError (status : Nat) (body : String)
deriving DecidableEq

/-- The JSON answer the inpaint handler sends after the upstream call.  The
unrecognized-shape branch carries the raw upstream payload as its details. -/
inductive InpaintResult where
  | success (images : List ImageOut) (usage : Option String)
  | badShape (status : Nat) (error : String) (details : InpaintUpstreamBody)
  | upstreamFailure (status : Nat) (error : String) (details : String)
deriving DecidableEq

/-- Number of images in a success answer. -/
def InpaintResult.imageCount : InpaintResult → Nat
  | .success imgs _ => imgs.length
  | _ => 0

/-- Response-shape normalization of the inpaint handler
(`src/pages/api/inpaint-image.ts` lines 171-194): `if (response.data.image)`
gives a one-element array, `Array.isArray(response.data.images)` maps the
array, anything else answers 500 with the payload as details. -/
def inpaintNormalize (b : InpaintUpstreamBody) : InpaintResult :=
  if truthyStr b.image then
    .success [{ base64 := pngDataUrl (b.image.getD ""), seed := b.seed }] b.usage
  else
    match b.images with
    | some imgs =>
        .success (imgs.map fun i => { base64 := pngDataUrl i.image, seed := i.seed }) b.usage
    | none => .badShape 500 "Unexpected response from Stability API" b

/-- Post-upstream logic of the inpaint handler, including the catch block
(`src/pages/api/inpaint-image.ts` lines 196-202) that answers 500 with
`error.response?.data || error.message` as details. -/
def inpaintStage2 (u : InpaintUpstream) : InpaintResult :=
  match u with
  | .httpError status body =>
      .upstreamFailure 500 "Failed to inpaint image"
        (if body != "" then body else axiosErrorMessage status)
  | .ok b => inpaintNormalize b

/-- The parsed multipart fields of a `POST /api/erase-objects` request
(`src/pages/api/erase-objects.ts` lines 34-40). -/
structure EraseReq where
  imageFile : Option Unit
  maskFile : Option (List Nat)
deriving DecidableEq

/-- What the erase handler does before its single outbound HTTP call. -/
inductive EraseStage1 where
  | earlyResponse (status : Nat) (error : String)
  | callUpstream (form : List (String × FormEntry))
deriving DecidableEq

/-- Number of outbound HTTP attempts of the erase pre-upstream stage. -/
def EraseStage1.upstreamAttempts : EraseStage1 → Nat
  | .earlyResponse _ _ => 0
  | .callUpstream _ => 1

/-- Whether the erase stage reaches the outbound call. -/
def EraseStage1.isUpstreamCall : EraseStage1 → Bool
  | .earlyResponse _ _ => false
  | .callUpstream _ => true

/-- Error message of the missing-key branch of
`src/pages/api/erase-objects.ts` line 57. -/
def eraseKeyError : String :=
  "API key not configured"

/-- Pre-upstream logic of the erase handler
(`src/pages/api/erase-objects.ts` lines 30-68): files check, then sharp mask
processing, then key check, then the call.  There is no empty-mask
rejection. -/
def eraseStage1 (apiKey : Option String) (r : EraseReq) : EraseStage1 :=
  match r.imageFile, r.maskFile with
  | some _, some m =>
      let processed := sharpProcessMask m
      if truthyStr apiKey = false then
        .earlyResponse 500 eraseKeyError
      else
        .callUpstream [("image", FormEntry.rawFile), ("mask", FormEntry.maskBuf processed)]
  | _, _ => .earlyResponse 400 filesRequiredError

/-- Outcome of the single upstream call of the erase handler: a 2xx binary
body already base64-encoded, together with the value of `Date.now()` at
normalization time, or a non-2xx status with its body text. -/
inductive EraseUpstream where
  | ok (bodyBase64 : String) (now : Nat)
  | httpError (status : Nat) (body : String)
deriving DecidableEq

/-- The JSON answer the erase handler sends after the upstream call. -/
inductive EraseResult where
  | success (base64 : String) (seed : Nat)
  | errorResp (status : Nat) (error : String)
deriving DecidableEq

/-- Post-upstream logic of the erase handler
(`src/pages/api/erase-objects.ts` lines 70-87): on a non-2xx response,
propagate the upstream status and embed the body text in the error string; on
success return the raw base64 (no data-URL) with `Date.now()` as seed. -/
def eraseStage2 (u : EraseUpstream) : EraseResult :=
  match u with
  | .ok b64 now => .success b64 now
  | .httpError status body =>
      .errorResp status ("Stability AI API error: " ++ toString status ++ " - " ++ body)

/-- The fields of the legacy multipart inpaint request of
`src/unnamed/part_002` (lines 103-105). -/
structure LegacyInpaintReq where
  prompt : String
  negativePrompt : Option String
  steps : Option Nat
  cfgScale : Option Nat
  samples : Option Nat
deriving DecidableEq

/-- The legacy multipart form built by `src/unnamed/part_002` (lines
119-145), in append order: the two positive-prompt fields, the two
negative-prompt fields when truthy, then `cfg_scale || 7`, `samples || 1`,
`steps || 30`, then the raw (unprocessed) image and mask files. -/
def buildLegacyInpaintForm (r : LegacyInpaintReq) : List (String × FormEntry) :=
  [("text_prompts[0][text]", FormEntry.str r.prompt),
   ("text_prompts[0][weight]", FormEntry.str "1")]
  ++ (if truthyStr r.negativePrompt then
        [("text_prompts[1][text]", FormEntry.str (r.negativePrompt.getD "")),
         ("text_prompts[1][weight]", FormEntry.str "-1")]
      else [])
  ++ [("cfg_scale", FormEntry.num (jsOrNum r.cfgScale 7)),
      ("samples", FormEntry.num (jsOrNum r.samples 1)),
      ("steps", FormEntry.num (jsOrNum r.steps 30))]
  ++ [("init_image", FormEntry.rawFile), ("mask_image", FormEntry.rawFile)]

/-- The JSON answer of `GET /api/health` (`src/pages/api/health.ts` lines
13-16): always HTTP 200 with the key-presence flag. -/
structure HealthResponse where
  httpStatus : Nat
  statusText : String
  apiKeyConfigured : Bool
deriving DecidableEq

/-- The health handler. -/
def healthHandler (apiKey : Option String) : HealthResponse :=
  { httpStatus := 200, statusText := "OK", apiKeyConfigured := truthyStr apiKey }

/-- Pointwise form of the Jimp scan: strictly above 128 gives white, otherwise
black. -/
theorem jimpScanPixel_eq (v : Nat) :
    jimpScanPixel v = if 128 < v then whitePixel else blackPixel := by
  by_cases h : 128 < v <;> simp [jimpScanPixel, jimpThreshold, whitePixel, blackPixel, h]

/-- Pointwise form of the sharp threshold: at least 128 gives white, otherwise
black. -/
theorem sharpScanPixel_eq (v : Nat) :
    sharpScanPixel v = if 128 ≤ v then whitePixel else blackPixel := by
  by_cases h : 128 ≤ v <;> simp [sharpScanPixel, sharpThreshold, whitePixel, blackPixel, h]

/-- The inpaint mask normalization as a pure threshold map. -/
theorem jimpNormalizeMask_eq (m : List Nat) :
    jimpNormalizeMask m = m.map fun v => if 128 < v then whitePixel else blackPixel := by
  induction m with
  | nil => rfl
  | cons v t ih =>
      simp only [jimpNormalizeMask, List.map_cons] at ih ⊢
      rw [jimpScanPixel_eq, ih]

/-- The erase mask processing as a pure threshold map. -/
theorem sharpProcessMask_eq (m : List Nat) :
    sharpProcessMask m = m.map fun v => if 128 ≤ v then whitePixel else blackPixel := by
  induction m with
  | nil => rfl
  | cons v t ih =>
      simp only [sharpProcessMask, List.map_cons] at ih ⊢
      rw [sharpScanPixel_eq, ih]

/-- An all-black mask is preserved by the inpaint normalization. -/
theorem jimpNormalizeMask_replicate_zero (n : Nat) :
    jimpNormalizeMask (List.replicate n 0) = List.replicate n blackPixel := by
  rw [jimpNormalizeMask, List.map_replicate, jimpScanPixel_eq]
  simp

/-- An all-black mask is preserved by the erase mask processing. -/
theorem sharpProcessMask_replicate_zero (n : Nat) :
    sharpProcessMask (List.replicate n 0) = List.replicate n blackPixel := by
  rw [sharpProcessMask, List.map_replicate, sharpScanPixel_eq]
  simp

/-- Claim C1: every pixel produced by mask normalization, on the inpaint path
(Jimp scan) as well as on the erase path (sharp threshold), has its R, G and B
channels equal to each other and each 0 or 255, and its alpha channel equal to
255. -/
theorem C1_mask_pixels_binary_opaque (m : List Nat) (p : Pixel)
    (h : p ∈ jimpNormalizeMask m ∨ p ∈ sharpProcessMask m) :
    (p.r = 0 ∨ p.r = 255) ∧ p.g = p.r ∧ p.b = p.r ∧ p.a = 255 := by
  rcases h with h | h
  · rcases List.mem_map.mp h with ⟨v, _, rfl⟩
    by_cases hv : 128 < v <;> simp [jimpScanPixel, jimpThreshold, hv]
  · rcases List.mem_map.mp h with ⟨v, _, rfl⟩
    by_cases hv : 128 ≤ v <;> simp [sharpScanPixel, sharpThreshold, hv]

/-- Witness for C1 at the concrete intensity list `[200]`. -/
theorem C1_mask_pixels_binary_opaque_witness :
    ((jimpScanPixel 200).r = 0 ∨ (jimpScanPixel 200).r = 255) ∧
    (jimpScanPixel 200).g = (jimpScanPixel 200).r ∧
    (jimpScanPixel 200).b = (jimpScanPixel 200).r ∧
    (jimpScanPixel 200).a = 255 :=
  C1_mask_pixels_binary_opaque [200] (jimpScanPixel 200) (Or.inl (by decide))

/-- Claim C2 counterexample: on the erase path a pixel of greyscale intensity
exactly 128 becomes pure white, not pure black, because the sharp threshold is
met at equality. -/
theorem C2_erase_threshold_128_cex :
    sharpProcessMask [128] = [whitePixel] ∧ sharpProcessMask [128] ≠ [blackPixel] := by
  decide

/-- Claim C2 (amended): the inpaint path thresholds strictly (intensity above
128 becomes white, everything else black, so 128 resolves to black), while the
erase path via the sharp threshold maps every intensity of at least 128 to
white, so 128 resolves to white there. -/
theorem C2_threshold_amended (m : List Nat) :
    jimpNormalizeMask m = (m.map fun v => if 128 < v then whitePixel else blackPixel) ∧
    sharpProcessMask m = (m.map fun v => if 128 ≤ v then whitePixel else blackPixel) ∧
    jimpNormalizeMask [128] = [blackPixel] ∧
    sharpProcessMask [128] = [whitePixel] :=
  ⟨jimpNormalizeMask_eq m, sharpProcessMask_eq m, by decide, by decide⟩

/-- Claim C8: the legacy request encoders place the positive prompt at index 0
with weight 1, append the negative prompt with weight -1 exactly when it is
present, and default the numeric parameters steps, cfg scale, width, height
and samples to 30, 7, 1024, 1024 and 1 when absent. -/
theorem C8_legacy_encoder (r : GenerateReq) (lr : LegacyInpaintReq) :
    (buildGenerateBody r).text_prompts.head? = some { text := r.prompt, weight := 1 } ∧
    (buildGenerateBody r).text_prompts =
      (if truthyStr r.negativePrompt then
         [{ text := r.prompt, weight := 1 }, { text := r.negativePrompt, weight := -1 }]
       else [{ text := r.prompt, weight := 1 }]) ∧
    (buildGenerateBody { r with steps := none }).steps = 30 ∧
    (buildGenerateBody { r with cfgScale := none }).cfg_scale = 7 ∧
    (buildGenerateBody { r with width := none }).width = 1024 ∧
    (buildGenerateBody { r with height := none }).height = 1024 ∧
    (buildGenerateBody { r with samples := none }).samples = 1 ∧
    (∃ rest, buildLegacyInpaintForm lr =
       ("text_prompts[0][text]", FormEntry.str lr.prompt)
         :: ("text_prompts[0][weight]", FormEntry.str "1") :: rest) ∧
    ((("text_prompts[1][text]", FormEntry.str (lr.negativePrompt.getD "")) ∈
        buildLegacyInpaintForm lr) ↔ truthyStr lr.negativePrompt = true) ∧
    ("steps", FormEntry.num 30) ∈ buildLegacyInpaintForm { lr with steps := none } ∧
    ("cfg_scale", FormEntry.num 7) ∈ buildLegacyInpaintForm { lr with cfgScale := none } ∧
    ("samples", FormEntry.num 1) ∈ buildLegacyInpaintForm { lr with samples := none } := by
  refine ⟨?_, rfl, rfl, rfl, rfl, rfl, rfl, ?_, ?_, ?_, ?_, ?_⟩
  · by_cases h : truthyStr r.negativePrompt <;> simp [buildGenerateBody, h]
  · by_cases h : truthyStr lr.negativePrompt <;> simp [buildLegacyInpaintForm, h]
  · by_cases h : truthyStr lr.negativePrompt <;> simp [buildLegacyInpaintForm, h]
  · by_cases h : truthyStr lr.negativePrompt <;>
      simp [buildLegacyInpaintForm, h, jsOrNum, truthyNum]
  · by_cases h : truthyStr lr.negativePrompt <;>
      simp [buildLegacyInpaintForm, h, jsOrNum, truthyNum]
  · by_cases h : truthyStr lr.negativePrompt <;>
      simp [buildLegacyInpaintForm, h, jsOrNum, truthyNum]

/-- Claim C10: the generate endpoint applies its numeric defaults to every
falsy inbound value, so an explicit zero for cfgScale, steps, width, height or
samples is replaced by 7, 30, 1024, 1024 or 1 respectively, exactly as when
the field is absent. -/
theorem C10_zero_numeric_defaults (r : GenerateReq) :
    (buildGenerateBody { r with cfgScale := some 0 }).cfg_scale = 7 ∧
    (buildGenerateBody { r with steps := some 0 }).steps = 30 ∧
    (buildGenerateBody { r with width := some 0 }).width = 1024 ∧
    (buildGenerateBody { r with height := some 0 }).height = 1024 ∧
    (buildGenerateBody { r with samples := some 0 }).samples = 1 ∧
    buildGenerateBody
        { r with cfgScale := some 0, steps := some 0, width := some 0,
                 height := some 0, samples := some 0 } =
      buildGenerateBody
        { r with cfgScale := none, steps := none, width := none,
                 height := none, samples := none } :=
  ⟨rfl, rfl, rfl, rfl, rfl, rfl⟩

/-- Sample generate request with an empty prompt and no other fields. -/
def sampleGenReq : GenerateReq :=
  { prompt := some "", negativePrompt := none, steps := none, cfgScale := none,
    width := none, height := none, samples := none }

/-- Sample inpaint request with an empty prompt, both files present and a
one-pixel mask of intensity 200. -/
def sampleInpReq : InpaintReq :=
  { prompt := some "", negative_prompt := none, steps := none, cfg_scale := none,
    samples := none, seed := none, output_format := none, style_preset := none,
    imageFile := some (), maskFile := some [200] }

/-- Sample erase request with both files present. -/
def sampleEraseReq : EraseReq :=
  { imageFile := some (), maskFile := some [200] }

/-- Sample inpaint request whose mask is entirely black (two pixels of
intensity 0). -/
def inpReqBlack : InpaintReq :=
  { prompt := some "p", negative_prompt := none, steps := none, cfg_scale := none,
    samples := none, seed := none, output_format := none, style_preset := none,
    imageFile := some (), maskFile := some (List.replicate 2 0) }

/-- Sample erase request whose mask is entirely black. -/
def eraseReqBlack : EraseReq :=
  { imageFile := some (), maskFile := some (List.replicate 2 0) }

/-- Claim C3 counterexample: with a configured key, both files present and an
entirely black mask, the inpaint and erase handlers proceed to the upstream
call instead of rejecting the request as having no selected region. -/
theorem C3_no_empty_mask_rejection_cex :
    InpaintStage1.isUpstreamCall (inpaintStage1 (some "key") inpReqBlack) = true ∧
    EraseStage1.isUpstreamCall (eraseStage1 (some "key") eraseReqBlack) = true := by
  decide

/-- Claim C3 (amended): an entirely black input mask is normalized to an
entirely black mask without error on both paths, and the inpaint and erase
endpoints then forward the request upstream; neither endpoint rejects an
empty selection. -/
theorem C3_all_black_mask_amended (n : Nat) (key : String) (hkey : key ≠ "")
    (r : InpaintReq) (hi : r.imageFile = some ())
    (hm : r.maskFile = some (List.replicate n 0))
    (er : EraseReq) (hei : er.imageFile = some ())
    (hem : er.maskFile = some (List.replicate n 0)) :
    jimpNormalizeMask (List.replicate n 0) = List.replicate n blackPixel ∧
    sharpProcessMask (List.replicate n 0) = List.replicate n blackPixel ∧
    inpaintStage1 (some key) r =
      .callUpstream (buildInpaintForm r (List.replicate n blackPixel)) ∧
    eraseStage1 (some key) er =
      .callUpstream [("image", FormEntry.rawFile),
                     ("mask", FormEntry.maskBuf (List.replicate n blackPixel))] := by
  have hk : truthyStr (some key) = true := by simp [truthyStr, hkey]
  refine ⟨jimpNormalizeMask_replicate_zero n, sharpProcessMask_replicate_zero n, ?_, ?_⟩
  · simp [inpaintStage1, hk, hi, hm, jimpNormalizeMask_replicate_zero]
  · simp [eraseStage1, hk, hei, hem, sharpProcessMask_replicate_zero]

/-- Witness for the amended C3 at a concrete two-pixel all-black mask. -/
theorem C3_all_black_mask_amended_witness :
    jimpNormalizeMask (List.replicate 2 0) = List.replicate 2 blackPixel ∧
    sharpProcessMask (List.replicate 2 0) = List.replicate 2 blackPixel ∧
    inpaintStage1 (some "k") inpReqBlack =
      .callUpstream (buildInpaintForm inpReqBlack (List.replicate 2 blackPixel)) ∧
    eraseStage1 (some "k") eraseReqBlack =
      .callUpstream [("image", FormEntry.rawFile),
                     ("mask", FormEntry.maskBuf (List.replicate 2 blackPixel))] :=
  C3_all_black_mask_amended 2 "k" (by decide) inpReqBlack rfl rfl eraseReqBlack rfl rfl

/-- Claim C4 counterexample: with a configured key, a generate request and an
inpaint request whose prompt is the empty string are both forwarded upstream
instead of failing with a validation error. -/
theorem C4_empty_prompt_forwarded_cex :
    GenerateStage1.isUpstreamCall (generateStage1 (some "key") sampleGenReq) = true ∧
    InpaintStage1.isUpstreamCall (inpaintStage1 (some "key") sampleInpReq) = true := by
  decide

/-- Claim C4 (amended): the express generate endpoint and the inpaint endpoint
perform no prompt validation and forward every request upstream once the key
and file checks pass; the inpaint form always carries the defaulted prompt
field `body.prompt || empty string`, so an absent or empty prompt is sent as
the empty string while a whitespace-only prompt is forwarded unchanged; only
the Next API generate variant rejects an empty, whitespace-only or absent
prompt with a 400 validation error before the upstream call. -/
theorem C4_prompt_validation_amended (key : String) (hkey : key ≠ "")
    (r : GenerateReq) (ir : InpaintReq)
    (hi : ir.imageFile = some ()) (m : List Nat) (hm : ir.maskFile = some m)
    (nr : GenerateReq) (hnp : promptTrimTruthy nr.prompt = false) :
    generateStage1 (some key) r = .callUpstream (buildGenerateBody r) ∧
    (∃ form, inpaintStage1 (some key) ir = .callUpstream form ∧
       ("prompt", FormEntry.str (jsOrStr ir.prompt "")) ∈ form) ∧
    jsOrStr none "" = "" ∧ jsOrStr (some "") "" = "" ∧ jsOrStr (some " ") "" = " " ∧
    nextGenerateStage1 (some key) nr = .earlyResponse 400 "Prompt is required" := by
  have hk : truthyStr (some key) = true := by simp [truthyStr, hkey]
  refine ⟨by simp [generateStage1, hk], ?_, by decide, by decide, by decide,
          by simp [nextGenerateStage1, hk, hnp]⟩
  refine ⟨buildInpaintForm ir (jimpNormalizeMask m), by simp [inpaintStage1, hk, hi, hm], ?_⟩
  simp [buildInpaintForm]

/-- Witness for the amended C4 at concrete requests: a whitespace-only prompt
for the inpaint endpoint, an empty prompt for the express generate endpoint,
an absent prompt for the Next API variant. -/
theorem C4_prompt_validation_amended_witness :
    generateStage1 (some "k") sampleGenReq = .callUpstream (buildGenerateBody sampleGenReq) ∧
    (∃ form, inpaintStage1 (some "k") { sampleInpReq with prompt := some " " } =
       .callUpstream form ∧
       ("prompt", FormEntry.str (jsOrStr (some " ") "")) ∈ form) ∧
    jsOrStr none "" = "" ∧ jsOrStr (some "") "" = "" ∧ jsOrStr (some " ") "" = " " ∧
    nextGenerateStage1 (some "k") { sampleGenReq with prompt := none } =
      .earlyResponse 400 "Prompt is required" :=
  C4_prompt_validation_amended "k" (by decide) sampleGenReq
    { sampleInpReq with prompt := some " " } rfl [200] rfl
    { sampleGenReq with prompt := none } rfl

/-- Claim C5 counterexample: with no credential configured, an erase call
missing its files fails with the 400 missing-files validation error, not a
500 configuration error, because the file check of the erase handler runs
before its key check. -/
theorem C5_erase_400_before_key_cex :
    eraseStage1 none { imageFile := none, maskFile := none } =
      .earlyResponse 400 filesRequiredError ∧
    eraseStage1 none { imageFile := none, maskFile := none } ≠
      .earlyResponse 500 eraseKeyError := by
  decide

/-- Claim C5 (amended): with no configured credential, generate (both
variants) and inpaint answer 500 with their configuration-error message for
every request, and erase does so for every request carrying both files, while
an erase request missing a file answers 400 with the missing-files validation
error instead (its file check precedes its key check); in every case no
upstream call is made, and health still answers 200 with status OK and
apiKeyConfigured false. -/
theorem C5_missing_key_amended (apiKey : Option String)
    (hk : truthyStr apiKey = false)
    (r : GenerateReq) (ir : InpaintReq) (er : EraseReq)
    (hei : er.imageFile = some ()) (m : List Nat) (hem : er.maskFile = some m)
    (er2 : EraseReq) (hmiss : er2.imageFile = none ∨ er2.maskFile = none) :
    generateStage1 apiKey r = .earlyResponse 500 generateKeyError ∧
    nextGenerateStage1 apiKey r = .earlyResponse 500 nextGenerateKeyError ∧
    inpaintStage1 apiKey ir = .earlyResponse 500 inpaintKeyError ∧
    eraseStage1 apiKey er = .earlyResponse 500 eraseKeyError ∧
    eraseStage1 apiKey er2 = .earlyResponse 400 filesRequiredError ∧
    GenerateStage1.upstreamAttempts (generateStage1 apiKey r) = 0 ∧
    InpaintStage1.upstreamAttempts (inpaintStage1 apiKey ir) = 0 ∧
    EraseStage1.upstreamAttempts (eraseStage1 apiKey er) = 0 ∧
    EraseStage1.upstreamAttempts (eraseStage1 apiKey er2) = 0 ∧
    healthHandler apiKey =
      { httpStatus := 200, statusText := "OK", apiKeyConfigured := false } := by
  have h400 : eraseStage1 apiKey er2 = .earlyResponse 400 filesRequiredError := by
    rcases hmiss with h | h
    · simp [eraseStage1, h]
    · cases hi : er2.imageFile <;> simp [eraseStage1, h, hi]
  refine ⟨by simp [generateStage1, hk], by simp [nextGenerateStage1, hk],
          by simp [inpaintStage1, hk], by simp [eraseStage1, hk, hei, hem],
          h400, ?_, ?_, ?_, ?_, by simp [healthHandler, hk]⟩
  · simp [generateStage1, hk, GenerateStage1.upstreamAttempts]
  · simp [inpaintStage1, hk, InpaintStage1.upstreamAttempts]
  · simp [eraseStage1, hk, hei, hem, EraseStage1.upstreamAttempts]
  · simp [h400, EraseStage1.upstreamAttempts]

/-- Witness for the amended C5 with the credential absent, concrete complete
requests, and a concrete erase request with both files missing. -/
theorem C5_missing_key_amended_witness :
    generateStage1 none sampleGenReq = .earlyResponse 500 generateKeyError ∧
    nextGenerateStage1 none sampleGenReq = .earlyResponse 500 nextGenerateKeyError ∧
    inpaintStage1 none sampleInpReq = .earlyResponse 500 inpaintKeyError ∧
    eraseStage1 none sampleEraseReq = .earlyResponse 500 eraseKeyError ∧
    eraseStage1 none { imageFile := none, maskFile := none } =
      .earlyResponse 400 filesRequiredError ∧
    GenerateStage1.upstreamAttempts (generateStage1 none sampleGenReq) = 0 ∧
    InpaintStage1.upstreamAttempts (inpaintStage1 none sampleInpReq) = 0 ∧
    EraseStage1.upstreamAttempts (eraseStage1 none sampleEraseReq) = 0 ∧
    EraseStage1.upstreamAttempts
      (eraseStage1 none { imageFile := none, maskFile := none }) = 0 ∧
    healthHandler none =
      { httpStatus := 200, statusText := "OK", apiKeyConfigured := false } :=
  C5_missing_key_amended none rfl sampleGenReq sampleInpReq sampleEraseReq rfl [200] rfl
    { imageFile := none, maskFile := none } (Or.inl rfl)

/-- Claim C6 counterexample: on an upstream 404 the generate endpoint answers
500, not the upstream status code. -/
theorem C6_status_not_propagated_cex :
    generateStage2 (.httpError 404 "upstream-error-body") =
      .errorResp 500 "Failed to generate image" "upstream-error-body" ∧
    generateStage2 (.httpError 404 "upstream-error-body") ≠
      .errorResp 404 "Failed to generate image" "upstream-error-body" := by
  decide

/-- Claim C6 (amended): on an upstream non-2xx response the generate and
inpaint endpoints answer 500, with the upstream body verbatim as the details
field when that body is nonempty and the HTTP client error message as the
fallback when it is empty, while only the erase endpoint propagates the
upstream status code (embedding the body text in its error string); every
handler performs at most one upstream attempt. -/
theorem C6_upstream_error_amended (status : Nat) (body : String)
    (k : Option String) (gr : GenerateReq) (ir : InpaintReq) (er : EraseReq) :
    generateStage2 (.httpError status body) =
      .errorResp 500 "Failed to generate image"
        (if body ≠ "" then body else axiosErrorMessage status) ∧
    inpaintStage2 (.httpError status body) =
      .upstreamFailure 500 "Failed to inpaint image"
        (if body ≠ "" then body else axiosErrorMessage status) ∧
    eraseStage2 (.httpError status body) =
      .errorResp status ("Stability AI API error: " ++ toString status ++ " - " ++ body) ∧
    GenerateStage1.upstreamAttempts (generateStage1 k gr) ≤ 1 ∧
    InpaintStage1.upstreamAttempts (inpaintStage1 k ir) ≤ 1 ∧
    EraseStage1.upstreamAttempts (eraseStage1 k er) ≤ 1 := by
  refine ⟨?_, ?_, rfl, ?_, ?_, ?_⟩
  · by_cases h : body = "" <;> simp [generateStage2, h]
  · by_cases h : body = "" <;> simp [inpaintStage2, h]
  · cases h : generateStage1 k gr <;> simp [GenerateStage1.upstreamAttempts]
  · cases h : inpaintStage1 k ir <;> simp [InpaintStage1.upstreamAttempts]
  · cases h : eraseStage1 k er <;> simp [EraseStage1.upstreamAttempts]

/-- Witness for the amended C6 at a concrete upstream 404 with an empty body,
exercising the details fallback. -/
theorem C6_upstream_error_amended_witness :
    generateStage2 (.httpError 404 "") =
      .errorResp 500 "Failed to generate image"
        (if ("" : String) ≠ "" then "" else axiosErrorMessage 404) ∧
    inpaintStage2 (.httpError 404 "") =
      .upstreamFailure 500 "Failed to inpaint image"
        (if ("" : String) ≠ "" then "" else axiosErrorMessage 404) ∧
    eraseStage2 (.httpError 404 "") =
      .errorResp 404 ("Stability AI API error: " ++ toString 404 ++ " - " ++ "") ∧
    GenerateStage1.upstreamAttempts (generateStage1 none sampleGenReq) ≤ 1 ∧
    InpaintStage1.upstreamAttempts (inpaintStage1 none sampleInpReq) ≤ 1 ∧
    EraseStage1.upstreamAttempts (eraseStage1 none sampleEraseReq) ≤ 1 :=
  C6_upstream_error_amended 404 "" none sampleGenReq sampleInpReq sampleEraseReq

/-- Claim C7 counterexample: the upstream body with an empty images array is
recognized by the inpaint normalizer and produces a success answer with zero
images, so a recognized shape does not guarantee at least one element. -/
theorem C7_empty_images_array_cex :
    inpaintStage2 (.ok { image := none, seed := none, images := some [], usage := none }) =
      .success [] none ∧
    InpaintResult.imageCount
      (inpaintStage2
        (.ok { image := none, seed := none, images := some [], usage := none })) = 0 := by
  decide

/-- Claim C7 (amended): each recognized upstream shape normalizes
element-by-element in upstream order, prefixing every base64 payload with the
PNG data-URL scheme and propagating every seed unchanged; the output has
exactly as many images as the upstream array (hence at least one only when
that array is nonempty), the single-image shape always yields one element,
the raw-binary erase shape yields one raw base64 image with the timestamp
seed and no data-URL, and the concrete legacy body with artifact
(QQ==, 7) yields exactly the documented normalized output. -/
theorem C7_normalizer_amended (arts : List Artifact) (u : Option String)
    (img : String) (himg : img ≠ "") (sd : Option Nat) (imgs : List ImgItem)
    (b64 : String) (now : Nat) :
    generateStage2 (.ok { artifacts := some arts, usage := u }) =
      .success (arts.map fun a => { base64 := pngDataUrl a.base64, seed := a.seed }) u ∧
    (arts.map fun a => ({ base64 := pngDataUrl a.base64, seed := a.seed } : ImageOut)).length
      = arts.length ∧
    inpaintStage2 (.ok { image := some img, seed := sd, images := none, usage := u }) =
      .success [{ base64 := pngDataUrl img, seed := sd }] u ∧
    inpaintStage2 (.ok { image := none, seed := sd, images := some imgs, usage := u }) =
      .success (imgs.map fun i => { base64 := pngDataUrl i.image, seed := i.seed }) u ∧
    eraseStage2 (.ok b64 now) = .success b64 now ∧
    generateStage2
        (.ok { artifacts := some [{ base64 := "QQ==", seed := some 7 }], usage := none }) =
      .success [{ base64 := "data:image/png;base64,QQ==", seed := some 7 }] none := by
  refine ⟨rfl, by simp, ?_, rfl, rfl, by decide⟩
  simp [inpaintStage2, inpaintNormalize, truthyStr, himg]

/-- Witness for the amended C7 at concrete upstream bodies. -/
theorem C7_normalizer_amended_witness :
    generateStage2 (.ok { artifacts := some [{ base64 := "QQ==", seed := some 7 }],
                          usage := none }) =
      .success (([{ base64 := "QQ==", seed := some 7 }] : List Artifact).map
        fun a => { base64 := pngDataUrl a.base64, seed := a.seed }) none ∧
    (([{ base64 := "QQ==", seed := some 7 }] : List Artifact).map
        fun a => ({ base64 := pngDataUrl a.base64, seed := a.seed } : ImageOut)).length
      = ([{ base64 := "QQ==", seed := some 7 }] : List Artifact).length ∧
    inpaintStage2 (.ok { image := some "AA==", seed := some 3, images := none,
                         usage := none }) =
      .success [{ base64 := pngDataUrl "AA==", seed := some 3 }] none ∧
    inpaintStage2 (.ok { image := none, seed := some 3,
                         images := some [{ image := "BB==", seed := some 4 }],
                         usage := none }) =
      .success (([{ image := "BB==", seed := some 4 }] : List ImgItem).map
        fun i => { base64 := pngDataUrl i.image, seed := i.seed }) none ∧
    eraseStage2 (.ok "CC==" 1700000000000) = .success "CC==" 1700000000000 ∧
    generateStage2
        (.ok { artifacts := some [{ base64 := "QQ==", seed := some 7 }], usage := none }) =
      .success [{ base64 := "data:image/png;base64,QQ==", seed := some 7 }] none :=
  C7_normalizer_amended [{ base64 := "QQ==", seed := some 7 }] none "AA==" (by decide)
    (some 3) [{ image := "BB==", seed := some 4 }] "CC==" 1700000000000

/-- Claim C9 counterexample: on a 2xx upstream body without an artifacts
field, the generate endpoint answers 500 whose details is the TypeError
message of the failed artifacts access, identical whatever the payload was,
so the upstream payload is not included as detail. -/
theorem C9_generate_payload_dropped_cex :
    generateStage2 (.ok { artifacts := none, usage := some "payload-usage" }) =
      .errorResp 500 "Failed to generate image" typeErrorMessage ∧
    generateStage2 (.ok { artifacts := none, usage := some "payload-usage" }) =
      generateStage2 (.ok { artifacts := none, usage := none }) := by
  decide

/-- Claim C9 (amended): an upstream 2xx body matching no recognized shape is
never treated as success: the inpaint endpoint answers 500 including the
upstream payload as details, while the generate endpoint answers 500 whose
details is the runtime TypeError message rather than the upstream payload. -/
theorem C9_unrecognized_shape_amended (u : Option String) (b : InpaintUpstreamBody)
    (h1 : truthyStr b.image = false) (h2 : b.images = none) :
    inpaintStage2 (.ok b) = .badShape 500 "Unexpected response from Stability API" b ∧
    generateStage2 (.ok { artifacts := none, usage := u }) =
      .errorResp 500 "Failed to generate image" typeErrorMessage := by
  exact ⟨by simp [inpaintStage2, inpaintNormalize, h1, h2], rfl⟩

/-- Witness for the amended C9 at a concrete empty upstream body. -/
theorem C9_unrecognized_shape_amended_witness :
    inpaintStage2 (.ok { image := none, seed := none, images := none, usage := none }) =
      .badShape 500 "Unexpected response from Stability API"
        { image := none, seed := none, images := none, usage := none } ∧
    generateStage2 (.ok { artifacts := none, usage := some "x" }) =
      .errorResp 500 "Failed to generate image" typeErrorMessage :=
  C9_unrecognized_shape_amended (some "x")
    { image := none, seed := none, images := none, usage := none } rfl rfl

end StabilityProxy
